import Mathlib

/-!
Shallow embedding of the Meetup-FastAPI event-registration service
(`app/models.py`, `app/schemas.py`, `app/crud.py`, `app/services.py`).

The relational store is a `DB` record holding the three tables as lists,
plus the autoincrement counters for the primary keys.  Python `datetime`
instants are embedded as `Int` (only equality and order are used by the
code).  Python `int` is embedded as `Int` where the source performs
arithmetic comparisons (`max_pax`), and as `Nat` for the autoincrement ids.
Functions that can raise Python exceptions return an `Except PyErr` result
paired with the database state as committed when the function returns or
raises (SQLAlchemy commits eagerly inside the crud layer, so a raise after
a commit leaves the mutation in place).
-/

namespace Meetup

/-- Embedding of `app/models.py` `User`: id, name, email, hashed_password, role. -/
structure User where
  id : Nat
  name : String
  email : String
  hashed_password : String
  role : String
deriving Repr, DecidableEq

/-- Embedding of `app/models.py` `Event`: id, name, date, venue, room, speaker,
description, max_pax, organizer_id. -/
structure Event where
  id : Nat
  name : String
  date : Int
  venue : String
  room : String
  speaker : Option String
  description : Option String
  max_pax : Int
  organizer_id : Nat
deriving Repr, DecidableEq

/-- Embedding of `app/models.py` `Enrollment`: id, user_id, event_id.  The `user_id`
foreign-key column is nullable (no `nullable=False` in the model), which
matters because deleting a `User` makes SQLAlchemy null out this column on
the user's enrollments (the `events` relationship declares no delete
cascade). -/
structure Enrollment where
  id : Nat
  user_id : Option Nat
  event_id : Nat
deriving Repr, DecidableEq

/-- Embedding of `app/schemas.py` `EventCreate`: the update/creation payload.  It has no
`id` and no `organizer_id` field. -/
structure EventCreate where
  name : String
  date : Int
  venue : String
  room : String
  speaker : Option String
  description : Option String
  max_pax : Int
deriving Repr, DecidableEq

/-- The committed database state: the three tables plus autoincrement
counters for the integer primary keys. -/
structure DB where
  users : List User
  events : List Event
  enrollments : List Enrollment
  next_user_id : Nat
  next_event_id : Nat
  next_enrollment_id : Nat
deriving Repr, DecidableEq

/-- The Python exceptions the embedded code can raise:
`AttributeError` (dereferencing `None`), `ValueError`, `PermissionError`. -/
inductive PyErr where
  | attributeErr
  | valueErr (msg : String)
  | permissionErr (msg : String)
deriving Repr, DecidableEq

/-- Discriminator like `Except.isOk`, specialised to `PyErr` results. -/
def okResult : Except PyErr α → Bool
  | Except.ok _ => true
  | Except.error _ => false

/-! ### crud layer (`app/crud.py`) -/

/-- Embedding of `crud.get_event` (and the identical `crud.get_event_by_id`):
`db.query(Event).filter(Event.id == event_id).first()`. -/
def get_event (db : DB) (event_id : Nat) : Option Event :=
  db.events.find? (fun e => e.id == event_id)

/-- The row built by `Enrollment(user_id=user_id, event_id=event_id)`,
with the autoincremented primary key. -/
def newEnrollment (db : DB) (user_id event_id : Nat) : Enrollment :=
  { id := db.next_enrollment_id, user_id := some user_id, event_id := event_id }

/-- Embedding of `crud.enroll_user_in_event`: insert `Enrollment(user_id, event_id)`,
commit, return the new row. -/
def enroll_user_in_event (db : DB) (user_id event_id : Nat) : Enrollment × DB :=
  (newEnrollment db user_id event_id,
    { db with
        enrollments := db.enrollments ++ [newEnrollment db user_id event_id]
        next_enrollment_id := db.next_enrollment_id + 1 })

/-- The row built by `Event(**event.model_dump(), organizer_id=organizer_id)`,
with the autoincremented primary key. -/
def newEvent (db : DB) (ed : EventCreate) (organizer_id : Nat) : Event :=
  { id := db.next_event_id, name := ed.name, date := ed.date, venue := ed.venue,
    room := ed.room, speaker := ed.speaker, description := ed.description,
    max_pax := ed.max_pax, organizer_id := organizer_id }

/-- Embedding of `crud.create_event`: `Event(**event.model_dump(), organizer_id=organizer_id)`,
insert and commit. -/
def crud_create_event (db : DB) (ed : EventCreate) (organizer_id : Nat) : Event × DB :=
  (newEvent db ed organizer_id,
    { db with
        events := db.events ++ [newEvent db ed organizer_id]
        next_event_id := db.next_event_id + 1 })

/-- The event row after `setattr(event, key, value)` for every key of
`event_data.model_dump()` — exactly the `EventCreate` fields, so `id` and
`organizer_id` are untouched. -/
def updatedEvent (event : Event) (ed : EventCreate) : Event :=
  { event with
      name := ed.name, date := ed.date, venue := ed.venue, room := ed.room,
      speaker := ed.speaker, description := ed.description, max_pax := ed.max_pax }

/-- Embedding of `crud.update_event`: overwrite the payload fields on the row and
commit. -/
def update_crud_event (db : DB) (event : Event) (ed : EventCreate) : Event × DB :=
  (updatedEvent event ed,
    { db with
        events := db.events.map (fun e =>
          if e.id == event.id then updatedEvent event ed else e) })

/-- Embedding of `crud.delete_user`: find the user by id; if present, `db.delete(user)`
and commit.  The `User.events` relationship in `app/models.py` declares no
delete cascade, so SQLAlchemy's default unit-of-work behaviour on deleting
the parent is to null out `user_id` on that user's `Enrollment` rows, not
to delete them. -/
def delete_user (db : DB) (user_id : Nat) : Option User × DB :=
  match db.users.find? (fun u => u.id == user_id) with
  | none => (none, db)
  | some u =>
    (some u,
      { db with
          users := db.users.filter (fun v => !(v.id == user_id))
          enrollments := db.enrollments.map (fun e =>
            if e.user_id == some user_id then { e with user_id := none } else e) })

/-! ### services layer (`app/services.py`) -/

/-- The rows of `event.participants`: the `Enrollment` relationship,
i.e. the committed enrollments whose `event_id` equals the event's id. -/
def participants (db : DB) (event_id : Nat) : List Enrollment :=
  db.enrollments.filter (fun e => e.event_id == event_id)

/-- Value of `len(event.participants)`. -/
def participantCount (db : DB) (event_id : Nat) : Nat :=
  (participants db event_id).length

/-- Embedding of `services.check_event_capacity`: `len(event.participants) < event.max_pax`. -/
def check_event_capacity (db : DB) (event : Event) : Bool :=
  decide ((participantCount db event.id : Int) < event.max_pax)

/-- Value of `enrollment.event.date`: resolve the `event` relationship of an
enrollment row and read its date.  Events are never deleted by any code
path, so in every state the service produces the relationship resolves;
`none` here corresponds to a dangling `event_id`. -/
def eventDateOf (events : List Event) (e : Enrollment) : Option Int :=
  (events.find? (fun ev => ev.id == e.event_id)).map (fun ev => ev.date)

/-- Embedding of `services.check_user_conflict`: query the user's enrollments; return
`False` (conflict) as soon as one of them links to an event whose date
equals `event_date`, else `True`. -/
def check_user_conflict (db : DB) (user_id : Nat) (event_date : Int) : Bool :=
  !(db.enrollments.any (fun e =>
      e.user_id == some user_id && eventDateOf db.events e == some event_date))

/-- Embedding of `services.enroll_user`.  `get_event` may return `None`, in which case
`check_event_capacity(None)` evaluates `None.participants` and raises
`AttributeError`.  Otherwise the function returns `None` (no enrollment)
when the event is full or the user has a date conflict, and inserts the
enrollment only when both checks pass. -/
def enroll_user (db : DB) (user_id event_id : Nat) :
    Except PyErr (Option Enrollment) × DB :=
  match get_event db event_id with
  | none => (Except.error PyErr.attributeErr, db)
  | some event =>
    if !(check_event_capacity db event) then (Except.ok none, db)
    else if !(check_user_conflict db user_id event.date) then (Except.ok none, db)
    else
      let r := enroll_user_in_event db user_id event_id
      (Except.ok (some r.1), r.2)

/-- The venue/room/date collision filter of `services.create_event`:
`Event.venue == event_data.venue, Event.room == event_data.room,
Event.date == event_data.date`. -/
def eventCollides (ed : EventCreate) (e : Event) : Bool :=
  e.venue == ed.venue && e.room == ed.room && e.date == ed.date

/-- Embedding of `services.create_event`: reject (return `None`, no insert) when any
existing event matches the (venue, room, date) triple, else insert via
`crud.create_event`. -/
def create_event (db : DB) (ed : EventCreate) (organizer_id : Nat) :
    Option Event × DB :=
  if db.events.any (eventCollides ed) then (none, db)
  else
    let r := crud_create_event db ed organizer_id
    (some r.1, r.2)

/-- Embedding of `services.update_event`: `ValueError` when the event is missing;
`PermissionError` when
`current_user.role != "admin" and (current_user.id != event.organizer_id
or event.date < datetime.now())`; otherwise overwrite the `EventCreate`
fields via `crud.update_event`.  `datetime.now()` is passed in as `now`. -/
def update_event (db : DB) (event_id : Nat) (ed : EventCreate) (cu : User)
    (now : Int) : Except PyErr Event × DB :=
  match get_event db event_id with
  | none => (Except.error (PyErr.valueErr "Event not found"), db)
  | some event =>
    if !(cu.role == "admin") && (!(cu.id == event.organizer_id) || decide (event.date < now)) then
      (Except.error (PyErr.permissionErr "Not authorized to update this event"), db)
    else
      let r := update_crud_event db event ed
      (Except.ok r.1, r.2)

/-- Embedding of `services.remove_event_organizer`: calls `crud.delete_user` FIRST and
only afterwards validates the result; the `ValueError` on a non-organizer
target is raised after the delete has already been committed. -/
def remove_event_organizer (db : DB) (organizer_id : Nat) :
    Except PyErr User × DB :=
  let r := delete_user db organizer_id
  match r.1 with
  | none => (Except.error (PyErr.valueErr "Organizer not found"), r.2)
  | some o =>
    if !(o.role == "event_organizer") then
      (Except.error (PyErr.valueErr "Organizer not found"), r.2)
    else (Except.ok o, r.2)

/-! ### Request sequences

A sequence of enrollment requests against the service: each request either
commits its mutation or leaves the database as it was (a raised exception
aborts that request only, the committed state carries over to the next). -/

/-- Run a list of `(user_id, event_id)` enrollment requests. -/
def runEnrolls (db : DB) (ops : List (Nat × Nat)) : DB :=
  ops.foldl (fun d op => (enroll_user d op.1 op.2).2) db

/-- Run a list of `(payload, organizer_id)` event-creation requests. -/
def runCreates (db : DB) (ops : List (EventCreate × Nat)) : DB :=
  ops.foldl (fun d op => (create_event d op.1 op.2).2) db

/-! ### Specification predicates -/

/-- Capacity invariant: every event's enrollment count is at most its
`max_pax`. -/
def capacityInv (db : DB) : Prop :=
  ∀ e ∈ db.events, (participantCount db e.id : Int) ≤ e.max_pax

instance : Decidable (capacityInv db) := List.decidableBAll _ _

/-- Event primary keys are pairwise distinct (guaranteed by the store's
primary-key constraint). -/
def eventIdsNodup (db : DB) : Prop :=
  (db.events.map (fun e => e.id)).Nodup

instance : Decidable (eventIdsNodup db) := List.nodupDecidable _

/-- Two events collide when they share venue, room and date. -/
def sameTriple (a b : Event) : Prop :=
  a.venue = b.venue ∧ a.room = b.room ∧ a.date = b.date

instance : Decidable (sameTriple a b) := by unfold sameTriple; infer_instance

/-- Scheduling-conflict invariant: no two committed events share the
(venue, room, date) triple. -/
def tripleUnique (db : DB) : Prop :=
  db.events.Pairwise (fun a b => ¬ sameTriple a b)

instance : Decidable (tripleUnique db) := List.instDecidablePairwise _

/-- Two enrollment rows double-book a user when they are held by the same
(non-null) user and resolve to events with the same date. -/
def sameUserSameDate (events : List Event) (a b : Enrollment) : Prop :=
  a.user_id.isSome = true ∧ a.user_id = b.user_id ∧
  (eventDateOf events a).isSome = true ∧ eventDateOf events a = eventDateOf events b

instance : Decidable (sameUserSameDate evs a b) := by
  unfold sameUserSameDate; infer_instance

/-- No-double-booking invariant: no user holds two enrollments whose
events share a date. -/
def noDoubleBooking (db : DB) : Prop :=
  db.enrollments.Pairwise (fun a b => ¬ sameUserSameDate db.events a b)

instance : Decidable (noDoubleBooking db) := List.instDecidablePairwise _

/-- The database state after a successful `enroll_user db u e`. -/
def dbAfterEnroll (db : DB) (u e : Nat) : DB :=
  { db with
      enrollments := db.enrollments ++ [newEnrollment db u e]
      next_enrollment_id := db.next_enrollment_id + 1 }

/-- True when an enrollment request returned an actual enrollment row. -/
def okEnrollment : Except PyErr (Option Enrollment) → Bool
  | Except.ok (some _) => true
  | _ => false

/-! ### Concrete states for witnesses and counterexamples -/

def c1event : Event :=
  { id := 1, name := "Full", date := 10, venue := "Hall", room := "A",
    speaker := none, description := none, max_pax := 0, organizer_id := 1 }

def c1db : DB :=
  { users := [], events := [c1event], enrollments := [],
    next_user_id := 1, next_event_id := 2, next_enrollment_id := 1 }

def c3admin : User :=
  { id := 1, name := "Root", email := "root@x.com", hashed_password := "h",
    role := "admin" }

def c3p1 : EventCreate :=
  { name := "E1", date := 10, venue := "Hall", room := "1",
    speaker := none, description := none, max_pax := 10 }

def c3p2 : EventCreate :=
  { name := "E2", date := 20, venue := "Annex", room := "2",
    speaker := none, description := none, max_pax := 10 }

def c3db0 : DB :=
  { users := [c3admin], events := [], enrollments := [],
    next_user_id := 2, next_event_id := 1, next_enrollment_id := 1 }

def c3db1 : DB := (create_event c3db0 c3p1 1).2

def c3db2 : DB := (create_event c3db1 c3p2 1).2

def c3db3 : DB := (update_event c3db2 2 c3p1 c3admin 0).2

def c5admin : User :=
  { id := 1, name := "Root", email := "root@x.com", hashed_password := "h",
    role := "admin" }

def c5e1 : Event :=
  { id := 1, name := "A", date := 10, venue := "H", room := "1",
    speaker := none, description := none, max_pax := 5, organizer_id := 1 }

def c5e2 : Event :=
  { id := 2, name := "B", date := 20, venue := "H", room := "2",
    speaker := none, description := none, max_pax := 5, organizer_id := 1 }

def c5e3 : Event :=
  { id := 3, name := "C", date := 10, venue := "H", room := "3",
    speaker := none, description := none, max_pax := 5, organizer_id := 1 }

def c5db0 : DB :=
  { users := [c5admin], events := [c5e1, c5e2, c5e3], enrollments := [],
    next_user_id := 2, next_event_id := 4, next_enrollment_id := 1 }

def c5db1 : DB := (enroll_user c5db0 1 1).2

def c5db2 : DB := (enroll_user c5db1 1 2).2

def c5payload : EventCreate :=
  { name := "B", date := 10, venue := "H", room := "2",
    speaker := none, description := none, max_pax := 5 }

def c5db3 : DB := (update_event c5db2 2 c5payload c5admin 0).2

def c6owner : User :=
  { id := 7, name := "Org", email := "org@x.com", hashed_password := "h",
    role := "event_organizer" }

def c6admin : User :=
  { id := 8, name := "Adm", email := "adm@x.com", hashed_password := "h",
    role := "admin" }

def c6event : Event :=
  { id := 1, name := "E", date := 100, venue := "V", room := "R",
    speaker := none, description := none, max_pax := 5, organizer_id := 7 }

def c6db : DB :=
  { users := [c6owner, c6admin], events := [c6event], enrollments := [],
    next_user_id := 9, next_event_id := 2, next_enrollment_id := 1 }

def c6payload : EventCreate :=
  { name := "E", date := 100, venue := "V", room := "R",
    speaker := none, description := none, max_pax := 5 }

def c7event : Event :=
  { id := 1, name := "First", date := 30, venue := "Hall", room := "1",
    speaker := none, description := none, max_pax := 4, organizer_id := 2 }

def c7db : DB :=
  { users := [], events := [c7event], enrollments := [],
    next_user_id := 1, next_event_id := 2, next_enrollment_id := 1 }

def c7payload : EventCreate :=
  { name := "Second", date := 30, venue := "Hall", room := "1",
    speaker := none, description := none, max_pax := 4 }

def c7payload2 : EventCreate :=
  { name := "Third", date := 40, venue := "Hall", room := "1",
    speaker := none, description := none, max_pax := 4 }

def c8event : Event :=
  { id := 1, name := "E", date := 10, venue := "V", room := "R",
    speaker := none, description := none, max_pax := 5, organizer_id := 1 }

def c8db : DB :=
  { users := [], events := [c8event], enrollments := [],
    next_user_id := 1, next_event_id := 2, next_enrollment_id := 1 }

def c8db2 : DB := (enroll_user c8db 1 1).2

def c2participant : User :=
  { id := 1, name := "P", email := "p@x.com", hashed_password := "h",
    role := "participant" }

def c2db : DB :=
  { users := [c2participant], events := [], enrollments := [],
    next_user_id := 2, next_event_id := 1, next_enrollment_id := 1 }

def c4db : DB :=
  { users := [], events := [], enrollments := [],
    next_user_id := 1, next_event_id := 1, next_enrollment_id := 1 }

def c9user : User :=
  { id := 1, name := "U", email := "u@x.com", hashed_password := "h",
    role := "participant" }

def c9event : Event :=
  { id := 1, name := "E", date := 10, venue := "V", room := "R",
    speaker := none, description := none, max_pax := 5, organizer_id := 1 }

def c9enr : Enrollment := { id := 1, user_id := some 1, event_id := 1 }

def c9db : DB :=
  { users := [c9user], events := [c9event], enrollments := [c9enr],
    next_user_id := 2, next_event_id := 2, next_enrollment_id := 2 }

def c10payload : EventCreate :=
  { name := "New", date := 200, venue := "V2", room := "R2",
    speaker := some "S", description := some "D", max_pax := 9 }

/-! ### Basic lemmas about the operations -/

theorem get_event_mem (db : DB) (e : Nat) (ev : Event)
    (hg : get_event db e = some ev) : ev ∈ db.events := by
  unfold get_event at hg
  exact List.mem_of_find?_eq_some hg

theorem get_event_id (db : DB) (e : Nat) (ev : Event)
    (hg : get_event db e = some ev) : ev.id = e := by
  unfold get_event at hg
  have h := List.find?_some hg
  simpa using h

theorem enroll_user_spec (db : DB) (u e : Nat) :
    (enroll_user db u e = (Except.error PyErr.attributeErr, db) ∧ get_event db e = none) ∨
    enroll_user db u e = (Except.ok none, db) ∨
    (∃ ev, get_event db e = some ev ∧ check_event_capacity db ev = true ∧
      check_user_conflict db u ev.date = true ∧
      enroll_user db u e = (Except.ok (some (newEnrollment db u e)), dbAfterEnroll db u e)) := by
  unfold enroll_user
  cases hg : get_event db e with
  | none => exact Or.inl ⟨rfl, rfl⟩
  | some ev =>
    by_cases hc : check_event_capacity db ev = true
    · by_cases hf : check_user_conflict db u ev.date = true
      · refine Or.inr (Or.inr ⟨ev, rfl, hc, hf, ?_⟩)
        simp [hc, hf, enroll_user_in_event, dbAfterEnroll]
      · refine Or.inr (Or.inl ?_)
        simp [hc, Bool.eq_false_iff.mpr hf]
    · refine Or.inr (Or.inl ?_)
      simp [Bool.eq_false_iff.mpr hc]

theorem enroll_user_snd_cases (db : DB) (u e : Nat) :
    (enroll_user db u e).2 = db ∨
    (∃ ev, get_event db e = some ev ∧ check_event_capacity db ev = true ∧
      check_user_conflict db u ev.date = true ∧
      (enroll_user db u e).2 = dbAfterEnroll db u e) := by
  rcases enroll_user_spec db u e with ⟨h, _⟩ | h | ⟨ev, h1, h2, h3, h⟩
  · exact Or.inl (by rw [h])
  · exact Or.inl (by rw [h])
  · exact Or.inr ⟨ev, h1, h2, h3, by rw [h]⟩

theorem enroll_user_events_frame (db : DB) (u e : Nat) :
    (enroll_user db u e).2.events = db.events := by
  rcases enroll_user_snd_cases db u e with h | ⟨ev, _, _, _, h⟩
  · rw [h]
  · rw [h]; rfl

theorem participantCount_after_enroll (db : DB) (u e eid : Nat) :
    participantCount (dbAfterEnroll db u e) eid =
      participantCount db eid + (if e == eid then 1 else 0) := by
  unfold participantCount participants dbAfterEnroll newEnrollment
  simp only [List.filter_append, List.length_append]
  by_cases h : (e == eid) = true <;> simp [List.filter, h]

theorem eventDateOf_newEnrollment (db : DB) (u e : Nat) (ev : Event)
    (hg : get_event db e = some ev) :
    eventDateOf db.events (newEnrollment db u e) = some ev.date := by
  unfold eventDateOf newEnrollment
  unfold get_event at hg
  simp only
  rw [hg]
  rfl

/-- A true `check_user_conflict` means the user has no committed enrollment
resolving to the given date. -/
theorem check_user_conflict_true_iff (db : DB) (u : Nat) (d : Int) :
    check_user_conflict db u d = true ↔
      ∀ x ∈ db.enrollments,
        ¬(x.user_id = some u ∧ eventDateOf db.events x = some d) := by
  unfold check_user_conflict
  simp [List.any_eq_true, not_and, Bool.and_eq_true]

/-! ### Step lemmas: each service mutation preserves the invariants it
checks -/

theorem enroll_step_capacity (db : DB) (u e : Nat)
    (hn : eventIdsNodup db) (h : capacityInv db) :
    capacityInv (enroll_user db u e).2 := by
  rcases enroll_user_snd_cases db u e with heq | ⟨ev, hg, hc, _, heq⟩
  · rw [heq]; exact h
  · rw [heq]
    intro x hx
    have hx0 : x ∈ db.events := hx
    rw [participantCount_after_enroll]
    by_cases hxe : (e == x.id) = true
    · have hxid : x.id = e := (beq_iff_eq.mp hxe).symm
      have hevmem : ev ∈ db.events := get_event_mem db e ev hg
      have hevid : ev.id = e := get_event_id db e ev hg
      have hxev : x = ev :=
        List.inj_on_of_nodup_map hn hx0 hevmem (by rw [hxid, hevid])
      subst hxev
      have hlt : (participantCount db x.id : Int) < x.max_pax := of_decide_eq_true hc
      simp only [hxe, if_pos]
      push_cast
      omega
    · simp only [hxe, if_false, Nat.add_zero]
      exact h x hx0

theorem enroll_step_ndb (db : DB) (u e : Nat) (h : noDoubleBooking db) :
    noDoubleBooking (enroll_user db u e).2 := by
  rcases enroll_user_snd_cases db u e with heq | ⟨ev, hg, _, hf, heq⟩
  · rw [heq]; exact h
  · rw [heq]
    show (db.enrollments ++ [newEnrollment db u e]).Pairwise
      (fun a b => ¬ sameUserSameDate db.events a b)
    rw [List.pairwise_append]
    refine ⟨h, by simp, ?_⟩
    intro a ha b hb hsame
    rw [List.mem_singleton] at hb
    subst hb
    rcases hsame with ⟨_, huser, _, hdate⟩
    rw [eventDateOf_newEnrollment db u e ev hg] at hdate
    have huser' : a.user_id = some u := huser
    exact (check_user_conflict_true_iff db u ev.date).mp hf a ha ⟨huser', hdate⟩

theorem create_event_spec (db : DB) (ed : EventCreate) (oid : Nat) :
    (create_event db ed oid = (none, db) ∧ db.events.any (eventCollides ed) = true) ∨
    (db.events.any (eventCollides ed) = false ∧
      create_event db ed oid =
        (some (newEvent db ed oid),
         { db with
             events := db.events ++ [newEvent db ed oid]
             next_event_id := db.next_event_id + 1 })) := by
  unfold create_event
  by_cases hc : db.events.any (eventCollides ed) = true
  · exact Or.inl ⟨by simp [hc], hc⟩
  · have hc' := Bool.eq_false_iff.mpr hc
    exact Or.inr ⟨hc', by simp [hc', crud_create_event]⟩

theorem create_step_triple (db : DB) (ed : EventCreate) (oid : Nat)
    (h : tripleUnique db) : tripleUnique (create_event db ed oid).2 := by
  rcases create_event_spec db ed oid with ⟨heq, _⟩ | ⟨hany, heq⟩
  · rw [heq]; exact h
  · rw [heq]
    show (db.events ++ [newEvent db ed oid]).Pairwise (fun a b => ¬ sameTriple a b)
    rw [List.pairwise_append]
    refine ⟨h, by simp, ?_⟩
    intro a ha b hb hsame
    rw [List.mem_singleton] at hb
    subst hb
    rcases hsame with ⟨hv, hr, hd⟩
    have hfa : ¬ (eventCollides ed a = true) := (List.any_eq_false.mp hany) a ha
    apply hfa
    unfold eventCollides
    simp only [Bool.and_eq_true, beq_iff_eq]
    exact ⟨⟨hv, hr⟩, hd⟩

/-! ### Folding the step lemmas over request sequences -/

theorem runEnrolls_cons (db : DB) (op : Nat × Nat) (ops : List (Nat × Nat)) :
    runEnrolls db (op :: ops) = runEnrolls (enroll_user db op.1 op.2).2 ops := rfl

theorem runEnrolls_events (db : DB) (ops : List (Nat × Nat)) :
    (runEnrolls db ops).events = db.events := by
  induction ops generalizing db with
  | nil => rfl
  | cons op ops ih => rw [runEnrolls_cons, ih, enroll_user_events_frame]

theorem runEnrolls_capacity (db : DB) (ops : List (Nat × Nat))
    (hn : eventIdsNodup db) (h : capacityInv db) :
    capacityInv (runEnrolls db ops) := by
  induction ops generalizing db with
  | nil => exact h
  | cons op ops ih =>
    rw [runEnrolls_cons]
    refine ih _ ?_ (enroll_step_capacity db op.1 op.2 hn h)
    unfold eventIdsNodup
    rw [enroll_user_events_frame]
    exact hn

theorem runEnrolls_ndb (db : DB) (ops : List (Nat × Nat))
    (h : noDoubleBooking db) : noDoubleBooking (runEnrolls db ops) := by
  induction ops generalizing db with
  | nil => exact h
  | cons op ops ih =>
    rw [runEnrolls_cons]
    exact ih _ (enroll_step_ndb db op.1 op.2 h)

theorem runCreates_cons (db : DB) (op : EventCreate × Nat) (ops : List (EventCreate × Nat)) :
    runCreates db (op :: ops) = runCreates (create_event db op.1 op.2).2 ops := rfl

theorem runCreates_triple (db : DB) (ops : List (EventCreate × Nat))
    (h : tripleUnique db) : tripleUnique (runCreates db ops) := by
  induction ops generalizing db with
  | nil => exact h
  | cons op ops ih =>
    rw [runCreates_cons]
    exact ih _ (create_step_triple db op.1 op.2 h)

/-! ### Claim C1 -/

/-- C1: for every event the number of enrollments referencing it never
exceeds its `max_pax` after any sequence of `enroll_user` requests;
`enroll_user` rejects (returns no enrollment and leaves the state
unchanged) whenever the current enrollment count for the event is at least
`max_pax`, and inserts an enrollment only when the count is strictly below
`max_pax`. -/
theorem enroll_user_capacity_invariant (db : DB) (ops : List (Nat × Nat))
    (hn : eventIdsNodup db) (hinv : capacityInv db) :
    capacityInv (runEnrolls db ops) ∧
    (∀ uid eid ev, get_event db eid = some ev →
      ((ev.max_pax ≤ (participantCount db eid : Int) →
          enroll_user db uid eid = (Except.ok none, db)) ∧
       (∀ g db2, enroll_user db uid eid = (Except.ok (some g), db2) →
          (participantCount db eid : Int) < ev.max_pax))) := by
  refine ⟨runEnrolls_capacity db ops hn hinv, ?_⟩
  intro uid eid ev hg
  have hid : ev.id = eid := get_event_id db eid ev hg
  constructor
  · intro hfull
    have hcap : check_event_capacity db ev = false := by
      unfold check_event_capacity
      rw [hid]
      simp only [decide_eq_false_iff_not, not_lt]
      exact hfull
    unfold enroll_user
    rw [hg]
    simp [hcap]
  · intro g db2 hsucc
    rcases enroll_user_spec db uid eid with ⟨h1, _⟩ | h1 | ⟨ev2, hg2, hc2, _, h1⟩
    · rw [h1] at hsucc; simp at hsucc
    · rw [h1] at hsucc; simp at hsucc
    · rw [hg] at hg2
      have hev : ev = ev2 := Option.some.inj hg2
      subst hev
      have hlt : (participantCount db ev.id : Int) < ev.max_pax := of_decide_eq_true hc2
      rw [hid] at hlt
      exact hlt

/-- Witness for C1: a concrete event already at capacity (`max_pax = 0`)
rejects an enrollment, and the invariant survives the request sequence. -/
theorem enroll_user_capacity_invariant_witness :
    capacityInv (runEnrolls c1db [(1, 1)]) ∧
    enroll_user c1db 1 1 = (Except.ok none, c1db) := by
  have h := enroll_user_capacity_invariant c1db [(1, 1)] (by decide) (by decide)
  exact ⟨h.1, (h.2 1 1 c1event (by decide)).1 (by decide)⟩

/-! ### Claim C3 -/

/-- C3 counterexample: two events are created with distinct (venue, room,
date) triples, then an authorized `update_event` rewrites the second event
to the first event's triple without any conflict check, so the uniqueness
invariant is violated after a sequence of creation and update operations —
refuting the claim that updates preserve it. -/
theorem venue_room_date_uniqueness_counterexample :
    (create_event c3db0 c3p1 1).1.isSome = true ∧
    (create_event c3db1 c3p2 1).1.isSome = true ∧
    okResult (update_event c3db2 2 c3p1 c3admin 0).1 = true ∧
    tripleUnique c3db2 ∧ ¬ tripleUnique c3db3 := by decide

/-- C3 (amended): the (venue, room, date) uniqueness invariant holds after
any sequence of event-creation operations — creation rejects a colliding
triple outright — but `update_event` performs no conflict check and can
break the invariant. -/
theorem venue_room_date_uniqueness (db : DB) (ops : List (EventCreate × Nat))
    (h : tripleUnique db) :
    tripleUnique (runCreates db ops) ∧
    (∀ ed oid,
      (∃ e ∈ db.events, e.venue = ed.venue ∧ e.room = ed.room ∧ e.date = ed.date) →
      create_event db ed oid = (none, db)) := by
  refine ⟨runCreates_triple db ops h, ?_⟩
  rintro ed oid ⟨e, he, hv, hr, hd⟩
  have hany : db.events.any (eventCollides ed) = true := by
    rw [List.any_eq_true]
    refine ⟨e, he, ?_⟩
    unfold eventCollides
    simp [hv, hr, hd]
  unfold create_event
  simp [hany]

/-- Witness for C3 (amended) at concrete creation requests, including a
rejected duplicate triple. -/
theorem venue_room_date_uniqueness_witness :
    tripleUnique (runCreates c3db0 [(c3p1, 1), (c3p2, 1), (c3p1, 1)]) ∧
    create_event c3db1 c3p1 1 = (none, c3db1) := by
  have h0 := venue_room_date_uniqueness c3db0 [(c3p1, 1), (c3p2, 1), (c3p1, 1)] (by decide)
  have h1 := venue_room_date_uniqueness c3db1 ([] : List (EventCreate × Nat)) (by decide)
  exact ⟨h0.1, h1.2 c3p1 1 ⟨newEvent c3db0 c3p1 1, by decide, by decide, by decide, by decide⟩⟩

/-! ### Claim C5 -/

/-- C5 counterexample: a user enrolls in two events with different dates
(both enrollments succeed), then an authorized `update_event` moves the
second event onto the first event's date; the user now holds two
enrollments whose events share a date, so the no-double-booking invariant
is violated after a sequence of enrollment and event-update operations —
refuting the claim that updates preserve it. -/
theorem no_double_booking_counterexample :
    okEnrollment (enroll_user c5db0 1 1).1 = true ∧
    okEnrollment (enroll_user c5db1 1 2).1 = true ∧
    okResult (update_event c5db2 2 c5payload c5admin 0).1 = true ∧
    noDoubleBooking c5db2 ∧ ¬ noDoubleBooking c5db3 := by decide

/-- C5 (amended): the no-double-booking invariant holds after any sequence
of `enroll_user` requests — enrollment is rejected when the target event's
date equals the date of an event the user is already enrolled in — but
`update_event` re-checks nothing and can break the invariant. -/
theorem no_double_booking_invariant (db : DB) (ops : List (Nat × Nat))
    (h : noDoubleBooking db) :
    noDoubleBooking (runEnrolls db ops) ∧
    (∀ uid eid ev, get_event db eid = some ev →
      (∃ x ∈ db.enrollments, x.user_id = some uid ∧
        eventDateOf db.events x = some ev.date) →
      enroll_user db uid eid = (Except.ok none, db)) := by
  refine ⟨runEnrolls_ndb db ops h, ?_⟩
  rintro uid eid ev hg ⟨x, hx, hxu, hxd⟩
  have hconf : check_user_conflict db uid ev.date = false := by
    rw [Bool.eq_false_iff]
    intro hT
    exact (check_user_conflict_true_iff db uid ev.date).mp hT x hx ⟨hxu, hxd⟩
  unfold enroll_user
  rw [hg]
  by_cases hc : check_event_capacity db ev = true
  · simp [hc, hconf]
  · simp [Bool.eq_false_iff.mpr hc]

/-- Witness for C5 (amended): a concrete two-enrollment run keeps the
invariant, and enrolling into a third event sharing an enrolled date is
rejected. -/
theorem no_double_booking_invariant_witness :
    noDoubleBooking (runEnrolls c5db0 [(1, 1), (1, 2)]) ∧
    enroll_user c5db1 1 3 = (Except.ok none, c5db1) := by
  have h0 := no_double_booking_invariant c5db0 [(1, 1), (1, 2)] (by decide)
  have h1 := no_double_booking_invariant c5db1 ([] : List (Nat × Nat)) (by decide)
  exact ⟨h0.1, h1.2 1 3 c5e3 (by decide)
    ⟨newEnrollment c5db0 1 1, by decide, by decide, by decide⟩⟩

/-! ### Claim C6 -/

theorem update_event_spec (db : DB) (eid : Nat) (ed : EventCreate) (cu : User)
    (now : Int) (ev : Event) (hg : get_event db eid = some ev) :
    ((!(cu.role == "admin") && (!(cu.id == ev.organizer_id) || decide (ev.date < now))) = true ∧
      update_event db eid ed cu now =
        (Except.error (PyErr.permissionErr "Not authorized to update this event"), db)) ∨
    ((!(cu.role == "admin") && (!(cu.id == ev.organizer_id) || decide (ev.date < now))) = false ∧
      update_event db eid ed cu now =
        (Except.ok (updatedEvent ev ed),
         { db with
             events := db.events.map (fun x =>
               if x.id == ev.id then updatedEvent ev ed else x) })) := by
  unfold update_event
  rw [hg]
  by_cases hb : (!(cu.role == "admin") && (!(cu.id == ev.organizer_id) || decide (ev.date < now))) = true
  · exact Or.inl ⟨hb, by simp [hb]⟩
  · have hb' := Bool.eq_false_iff.mpr hb
    exact Or.inr ⟨hb', by simp [hb', update_crud_event]⟩

theorem update_event_guard_iff (cu : User) (ev : Event) (now : Int) :
    ((!(cu.role == "admin") && (!(cu.id == ev.organizer_id) || decide (ev.date < now))) = true) ↔
      ¬(cu.role = "admin" ∨ (cu.id = ev.organizer_id ∧ now ≤ ev.date)) := by
  simp only [Bool.and_eq_true, Bool.or_eq_true, Bool.not_eq_true', beq_eq_false_iff_ne,
    decide_eq_true_eq, not_or, not_and, not_le]
  constructor
  · rintro ⟨hna, h2⟩
    refine ⟨hna, fun hid => ?_⟩
    rcases h2 with h2 | h2
    · exact absurd hid h2
    · exact h2
  · rintro ⟨hna, h2⟩
    refine ⟨hna, ?_⟩
    by_cases hid : cu.id = ev.organizer_id
    · exact Or.inr (h2 hid)
    · exact Or.inl hid

/-- C6 (amended): `update_event` on an existing event succeeds exactly when
the requester's role is admin, or the requester owns the event and the
event's date has not yet passed (`now ≤ date`; the boundary `date = now` is
allowed, weaker than the claim's "strictly in the future"); in every other
case it fails with the Forbidden-class `PermissionError` and leaves the
store unchanged, and an admin always succeeds when the event exists. -/
theorem update_event_authorization (db : DB) (eid : Nat) (ed : EventCreate)
    (cu : User) (now : Int) (ev : Event) (hg : get_event db eid = some ev) :
    (okResult (update_event db eid ed cu now).1 = true ↔
      (cu.role = "admin" ∨ (cu.id = ev.organizer_id ∧ now ≤ ev.date))) ∧
    (¬(cu.role = "admin" ∨ (cu.id = ev.organizer_id ∧ now ≤ ev.date)) →
      update_event db eid ed cu now =
        (Except.error (PyErr.permissionErr "Not authorized to update this event"), db)) ∧
    (cu.role = "admin" → okResult (update_event db eid ed cu now).1 = true) := by
  rcases update_event_spec db eid ed cu now ev hg with ⟨hb, heq⟩ | ⟨hb, heq⟩
  · have hnR := (update_event_guard_iff cu ev now).mp hb
    rw [heq]
    refine ⟨?_, fun _ => rfl, fun hadmin => absurd (Or.inl hadmin) hnR⟩
    constructor
    · intro hok
      simp [okResult] at hok
    · intro hR
      exact absurd hR hnR
  · have hR : cu.role = "admin" ∨ (cu.id = ev.organizer_id ∧ now ≤ ev.date) := by
      by_contra hn
      rw [(update_event_guard_iff cu ev now).mpr hn] at hb
      cases hb
    rw [heq]
    exact ⟨⟨fun _ => hR, fun _ => rfl⟩, fun hc => absurd hR hc, fun _ => rfl⟩

/-- Witness for C6 (amended): an admin updates an event whose date already
passed, and the call succeeds. -/
theorem update_event_authorization_witness :
    okResult (update_event c6db 1 c6payload c6admin 500).1 = true :=
  (update_event_authorization c6db 1 c6payload c6admin 500 c6event
    (by decide)).2.2 (by decide)

/-- C6 counterexample: with `now` equal to the event's date, a non-admin
owner's update succeeds even though the date is NOT strictly in the
future, refuting the claim's "in every other case it fails Forbidden". -/
theorem update_event_authorization_counterexample :
    c6owner.role ≠ "admin" ∧ c6owner.id = c6event.organizer_id ∧
    get_event c6db 1 = some c6event ∧ ¬(100 < c6event.date) ∧
    okResult (update_event c6db 1 c6payload c6owner 100).1 = true := by decide

/-! ### Claim C10 -/

/-- C10: a successful `update_event` keeps the target event's `id` and
`organizer_id` unchanged, overwrites exactly the `EventCreate` payload
fields (name, date, venue, room, speaker, description, max_pax), and
touches nothing else in the store: users and enrollments are unchanged and
the event table changes only at the updated row. -/
theorem update_event_frame (db : DB) (eid : Nat) (ed : EventCreate) (cu : User)
    (now : Int) (ev ev2 : Event) (db2 : DB)
    (hg : get_event db eid = some ev)
    (h : update_event db eid ed cu now = (Except.ok ev2, db2)) :
    ev2.id = ev.id ∧ ev2.organizer_id = ev.organizer_id ∧ ev2.name = ed.name ∧
    ev2.date = ed.date ∧ ev2.venue = ed.venue ∧ ev2.room = ed.room ∧
    ev2.speaker = ed.speaker ∧ ev2.description = ed.description ∧
    ev2.max_pax = ed.max_pax ∧ db2.users = db.users ∧
    db2.enrollments = db.enrollments ∧
    db2.events = db.events.map (fun x => if x.id == ev.id then ev2 else x) := by
  rcases update_event_spec db eid ed cu now ev hg with ⟨_, heq⟩ | ⟨_, heq⟩
  · rw [heq] at h
    simp at h
  · rw [heq] at h
    simp only [Prod.mk.injEq, Except.ok.injEq] at h
    obtain ⟨hev, hdb⟩ := h
    subst hev
    subst hdb
    exact ⟨rfl, rfl, rfl, rfl, rfl, rfl, rfl, rfl, rfl, rfl, rfl, rfl⟩

/-- Witness for C10 at a concrete admin update. -/
theorem update_event_frame_witness :
    (update_event c6db 1 c10payload c6admin 0).2.users = c6db.users := by
  have h := update_event_frame c6db 1 c10payload c6admin 0 c6event
    (updatedEvent c6event c10payload) (update_event c6db 1 c10payload c6admin 0).2
    (by decide) rfl
  exact h.2.2.2.2.2.2.2.2.2.1

/-! ### Claim C7 -/

/-- C7: `create_event` rejects — returns no event and leaves the store
unchanged — if and only if some existing event has equal venue, room and
date; on acceptance it persists and returns a new event carrying the
supplied `organizer_id` and exactly the payload fields, appended to the
event table with everything else untouched. -/
theorem create_event_conflict_characterization (db : DB) (ed : EventCreate) (oid : Nat) :
    ((create_event db ed oid).1 = none ↔
      ∃ e ∈ db.events, e.venue = ed.venue ∧ e.room = ed.room ∧ e.date = ed.date) ∧
    ((create_event db ed oid).1 = none → (create_event db ed oid).2 = db) ∧
    (∀ ev, (create_event db ed oid).1 = some ev →
      ev.organizer_id = oid ∧ ev.name = ed.name ∧ ev.date = ed.date ∧
      ev.venue = ed.venue ∧ ev.room = ed.room ∧ ev.speaker = ed.speaker ∧
      ev.description = ed.description ∧ ev.max_pax = ed.max_pax ∧
      (create_event db ed oid).2 =
        { db with
            events := db.events ++ [ev]
            next_event_id := db.next_event_id + 1 }) := by
  have hiff : (db.events.any (eventCollides ed) = true) ↔
      (∃ e ∈ db.events, e.venue = ed.venue ∧ e.room = ed.room ∧ e.date = ed.date) := by
    rw [List.any_eq_true]
    constructor
    · rintro ⟨e, he, hc⟩
      unfold eventCollides at hc
      simp only [Bool.and_eq_true, beq_iff_eq] at hc
      exact ⟨e, he, hc.1.1, hc.1.2, hc.2⟩
    · rintro ⟨e, he, hv, hr, hd⟩
      refine ⟨e, he, ?_⟩
      unfold eventCollides
      simp [hv, hr, hd]
  rcases create_event_spec db ed oid with ⟨heq, hany⟩ | ⟨hany, heq⟩
  · rw [heq]
    exact ⟨⟨fun _ => hiff.mp hany, fun _ => rfl⟩, fun _ => rfl,
      fun ev hev => by simp at hev⟩
  · rw [heq]
    refine ⟨⟨fun hnone => by simp at hnone, fun hex => ?_⟩,
      fun hnone => by simp at hnone, fun ev hev => ?_⟩
    · have hcontra := hiff.mpr hex
      rw [hany] at hcontra
      cases hcontra
    · have hev' : newEvent db ed oid = ev := Option.some.inj hev
      subst hev'
      exact ⟨rfl, rfl, rfl, rfl, rfl, rfl, rfl, rfl, rfl⟩

/-- Witness for C7: a colliding payload is rejected with the store
unchanged, and a non-colliding payload is persisted. -/
theorem create_event_conflict_characterization_witness :
    (create_event c7db c7payload 2).1 = none ∧
    (create_event c7db c7payload 2).2 = c7db ∧
    (create_event c7db c7payload2 2).2.events =
      c7db.events ++ [newEvent c7db c7payload2 2] := by
  have h1 := create_event_conflict_characterization c7db c7payload 2
  have h2 := create_event_conflict_characterization c7db c7payload2 2
  have hnone : (create_event c7db c7payload 2).1 = none :=
    h1.1.mpr ⟨c7event, by decide, by decide, by decide, by decide⟩
  have hsome := (h2.2.2 (newEvent c7db c7payload2 2) (by decide)).2.2.2.2.2.2.2.2
  exact ⟨hnone, h1.2.1 hnone, by rw [hsome]⟩

/-! ### Claim C8 -/

/-- C8: after a successful `enroll_user` for `(u, e)`, calling it again
with the same pair never inserts a second enrollment: the second call
returns no enrollment and leaves the store unchanged (the user's existing
enrollment in the event makes the date-conflict check fail, and the
capacity check can only reject as well). -/
theorem enroll_user_no_double_enroll (db db2 : DB) (u e : Nat) (g : Enrollment)
    (h : enroll_user db u e = (Except.ok (some g), db2)) :
    enroll_user db2 u e = (Except.ok none, db2) := by
  rcases enroll_user_spec db u e with ⟨h1, _⟩ | h1 | ⟨ev, hg, _, _, h1⟩
  · rw [h1] at h
    simp at h
  · rw [h1] at h
    simp at h
  · rw [h1] at h
    simp only [Prod.mk.injEq, Except.ok.injEq, Option.some.injEq] at h
    obtain ⟨_, hdb⟩ := h
    subst hdb
    have hg2 : get_event (dbAfterEnroll db u e) e = some ev := hg
    unfold enroll_user
    rw [hg2]
    by_cases hc2 : check_event_capacity (dbAfterEnroll db u e) ev = true
    · have hconf : check_user_conflict (dbAfterEnroll db u e) u ev.date = false := by
        rw [Bool.eq_false_iff]
        intro hT
        have hmem : newEnrollment db u e ∈ (dbAfterEnroll db u e).enrollments := by
          show newEnrollment db u e ∈ db.enrollments ++ [newEnrollment db u e]
          simp
        have hno := (check_user_conflict_true_iff (dbAfterEnroll db u e) u ev.date).mp hT
          (newEnrollment db u e) hmem
        refine hno ⟨rfl, ?_⟩
        show eventDateOf db.events (newEnrollment db u e) = some ev.date
        exact eventDateOf_newEnrollment db u e ev hg
      simp [hc2, hconf]
    · simp [Bool.eq_false_iff.mpr hc2]

/-- Witness for C8: a concrete successful enrollment followed by an
identical request that is rejected without inserting. -/
theorem enroll_user_no_double_enroll_witness :
    enroll_user c8db2 1 1 = (Except.ok none, c8db2) :=
  enroll_user_no_double_enroll c8db c8db2 1 1 (newEnrollment c8db 1 1) rfl

/-! ### Claim C2 -/

/-- C2 (code bug): `remove_event_organizer` calls `delete_user` before
validating the target's role, so on a target whose role is not
`event_organizer` it raises the NotFound-class `ValueError` AFTER the user
row has already been deleted and committed — the rejection is not
all-or-nothing and the user store does not remain unchanged. -/
theorem remove_event_organizer_not_atomic :
    c2participant.role = "participant" ∧
    c2db.users = [c2participant] ∧
    (remove_event_organizer c2db 1).1 =
      Except.error (PyErr.valueErr "Organizer not found") ∧
    (remove_event_organizer c2db 1).2.users = [] :=
  ⟨rfl, rfl, rfl, rfl⟩

/-! ### Claim C4 -/

/-- C4 (code bug): when no event matches `event_id`, `enroll_user` does not
reject with a distinguishable EventNotFound failure — `get_event` returns
`None` and `check_event_capacity(None)` dereferences `None.participants`,
raising an unhandled `AttributeError`; no enrollment is created. -/
theorem enroll_user_missing_event_attribute_error :
    get_event c4db 7 = none ∧
    enroll_user c4db 1 7 = (Except.error PyErr.attributeErr, c4db) :=
  ⟨rfl, rfl⟩

/-! ### Claim C9 -/

theorem delete_user_spec (db : DB) (uid : Nat) :
    (delete_user db uid = (none, db) ∧ db.users.find? (fun v => v.id == uid) = none) ∨
    (∃ u, db.users.find? (fun v => v.id == uid) = some u ∧
      delete_user db uid =
        (some u,
         { db with
             users := db.users.filter (fun v => !(v.id == uid))
             enrollments := db.enrollments.map (fun e =>
               if e.user_id == some uid then { e with user_id := none } else e) })) := by
  unfold delete_user
  cases hf : db.users.find? (fun v => v.id == uid) with
  | none => exact Or.inl ⟨rfl, rfl⟩
  | some u => exact Or.inr ⟨u, rfl, rfl⟩

/-- C9 counterexample: deleting user 1 succeeds, but the user's enrollment
row is NOT removed from the enrollment store — it survives with its
`user_id` nulled out (the model declares no delete cascade), refuting
"cascades to removal of that user's Enrollments". -/
theorem delete_user_cascade_counterexample :
    c9db.enrollments = [c9enr] ∧ c9enr.user_id = some 1 ∧
    (delete_user c9db 1).1 = some c9user ∧
    (delete_user c9db 1).2.enrollments =
      [{ id := 1, user_id := none, event_id := 1 }] :=
  ⟨rfl, rfl, rfl, rfl⟩

/-- C9 (amended): after a successful `delete_user` for user id `uid`, no
enrollment references `uid` any more — the affected rows' `user_id` is set
to NULL — but the enrollment rows themselves are not removed: the
enrollment store keeps the same number of rows. -/
theorem delete_user_nulls_enrollments (db : DB) (uid : Nat) (u : User)
    (h : (delete_user db uid).1 = some u) :
    (∀ x ∈ (delete_user db uid).2.enrollments, x.user_id ≠ some uid) ∧
    (delete_user db uid).2.enrollments.length = db.enrollments.length := by
  rcases delete_user_spec db uid with ⟨heq, _⟩ | ⟨v, _, heq⟩
  · rw [heq] at h
    simp at h
  · rw [heq]
    constructor
    · intro x hx
      simp only [List.mem_map] at hx
      rcases hx with ⟨a, _, rfl⟩
      by_cases hau : (a.user_id == some uid) = true
      · rw [if_pos hau]
        simp
      · rw [if_neg hau]
        exact beq_eq_false_iff_ne.mp (Bool.eq_false_iff.mpr hau)
    · exact List.length_map _ _

/-- Witness for C9 (amended): the concrete deletion keeps the enrollment
row count. -/
theorem delete_user_nulls_enrollments_witness :
    (delete_user c9db 1).2.enrollments.length = c9db.enrollments.length :=
  (delete_user_nulls_enrollments c9db 1 c9user (by decide)).2

end Meetup
